import Mathlib

/-!
Verification development for the android-loader core (src/android_loader.rs):
a user-space loader for Android ELF shared objects. The definitions below are
a shallow embedding of the loader: machine integers become Nat with wrapping
captured by byte extraction, the memory image becomes a list of bytes, Rust
Results become Except values, and Rust panics (out-of-bounds slices, unwrap
of None) become a distinguished panicked error constructor. HashMaps are
modelled as association lists whose most recent insertion sits at the front,
so that lookup-first equals insert-overwrite semantics. The hook snapshot
(hook_manager::get_hooks()) and the host facts (usize width w, page size ps,
the address base handed out for the anonymous mapping, whether the host is
aarch64) are parameters.
-/

/-- Little-endian byte list of length w; models usize::to_ne_bytes on the
little-endian hosts the loader targets (x86, x86_64, Arm, AArch64), with
wrapping_add captured because only the value mod 2^(8*w) reaches the bytes. -/
def toNeBytes (w v : Nat) : List Nat :=
  (List.range w).map (fun i => v / 256 ^ i % 256)

/-- Models usize::from_ne_bytes over a little-endian byte list. -/
def fromNeBytes (bs : List Nat) : Nat :=
  bs.foldr (fun b acc => b + 256 * acc) 0

/-- Overwrite of bytes [off, off + bytes.length) of mem; the functional view
of copy_from_slice into memory_map[off..off+len] once bounds are checked. -/
def listWrite (mem : List Nat) (off : Nat) (bytes : List Nat) : List Nat :=
  mem.take off ++ bytes ++ mem.drop (off + bytes.length)

/-- region::page::floor: round down to a multiple of the page size. -/
def page_floor (ps a : Nat) : Nat := a / ps * ps

/-- region::page::ceil: round up to a multiple of the page size. -/
def page_ceil (ps a : Nat) : Nat := (a + ps - 1) / ps * ps

/-- usize::MAX for a host whose usize is w bytes wide. -/
def usizeMax (w : Nat) : Nat := 2 ^ (8 * w) - 1

/-- Modelled from the spec: the Symbol record of src/android_library.rs, a
file absent from the sources; fields follow spec section 3 and the
constructor uses in allocate (name and st_value as an offset into image). -/
structure ElfSymbol where
  name : String
  value : Nat
deriving DecidableEq

/-- Modelled from the spec: the AndroidLibrary of src/android_library.rs, a
file absent from the sources. memory_map is the byte image, base the host
address of the mapping (memory_map.as_ptr() as usize), symbols and strings
the two indexes described in spec section 3. -/
structure AndroidLibrary where
  memory_map : List Nat
  base : Nat
  symbols : List (String × ElfSymbol)
  strings : List (Nat × String)
deriving DecidableEq

/-- elfloader::arch::x86::RelocationTypes, restricted to the constructors the
dispatch names plus representatives of the wildcard branch. -/
inductive X86RelocationType
  | R_386_NONE
  | R_386_32
  | R_386_PC32
  | R_386_GLOB_DAT
  | R_386_JMP_SLOT
  | R_386_RELATIVE
deriving DecidableEq

/-- elfloader::arch::x86_64::RelocationTypes, same restriction. -/
inductive X8664RelocationType
  | R_AMD64_NONE
  | R_AMD64_64
  | R_AMD64_PC32
  | R_AMD64_GLOB_DAT
  | R_AMD64_JMP_SLOT
  | R_AMD64_RELATIVE
deriving DecidableEq

/-- elfloader::arch::arm::RelocationTypes, same restriction. -/
inductive ArmRelocationType
  | R_ARM_NONE
  | R_ARM_ABS32
  | R_ARM_REL32
  | R_ARM_COPY
  | R_ARM_GLOB_DAT
  | R_ARM_JUMP_SLOT
  | R_ARM_RELATIVE
deriving DecidableEq

/-- elfloader::arch::aarch64::RelocationTypes, same restriction. -/
inductive AArch64RelocationType
  | R_AARCH64_ABS64
  | R_AARCH64_COPY
  | R_AARCH64_GLOB_DAT
  | R_AARCH64_JUMP_SLOT
  | R_AARCH64_RELATIVE
deriving DecidableEq

/-- elfloader::RelocationType: the architecture tag over the kind enums. -/
inductive RelocationType
  | x86 (r : X86RelocationType)
  | x86_64 (r : X8664RelocationType)
  | Arm (r : ArmRelocationType)
  | AArch64 (r : AArch64RelocationType)
deriving DecidableEq

/-- elfloader::RelocationEntry: offset of the patch site, symbol table index,
architecture-tagged kind, and the optional explicit addend. -/
structure RelocationEntry where
  offset : Nat
  index : Nat
  rtype : RelocationType
  addend : Option Nat
deriving DecidableEq

/-- elfloader::ElfLoaderErr as used by the loader, extended with panicked,
which models a Rust panic (out-of-bounds slice, unwrap of None): a process
abort rather than a returned Err. -/
inductive ElfLoaderErr
  | unsupportedRelocationEntry
  | elfParser (source : String)
  | panicked
deriving DecidableEq

/-- Host code addresses of the built-in stub functions: in the source these
are the fn items of AndroidLoader cast to raw pointers. -/
structure StubAddrs where
  pthread_stub : Nat
  dlopen : Nat
  dlsym : Nat
  dlclose : Nat
  undefined_symbol_stub : Nat
deriving DecidableEq

/-- AndroidLoader::pthread_stub: the pthread no-op stub body returns 0. -/
def pthread_stub : Int := 0

/-- str::starts_with, expressed on the character data of the strings (the
core String.startsWith is opaque to kernel reduction). -/
def strStartsWith (s p : String) : Bool := p.data.isPrefixOf s.data

/-- AndroidLoader::get_libc_symbol: pthread functions resolve to the pthread
stub, the three dl functions to their host implementations, and anything
else to the panicking undefined-symbol stub. -/
def get_libc_symbol (stubs : StubAddrs) (symbol_name : String) : Nat :=
  if strStartsWith symbol_name ("pthread_") then stubs.pthread_stub
  else if symbol_name = ("dlopen") then stubs.dlopen
  else if symbol_name = ("dlsym") then stubs.dlsym
  else if symbol_name = ("dlclose") then stubs.dlclose
  else stubs.undefined_symbol_stub

/-- AndroidLoader::symbol_finder: hooks take precedence, otherwise fall back
to the libc stubs; the library argument is never consulted. -/
def symbol_finder (stubs : StubAddrs) (symbol_name : String)
    (library : AndroidLibrary) (hooks : List (String × Nat)) : Nat :=
  match hooks.lookup symbol_name with
  | some func => func
  | none => get_libc_symbol stubs symbol_name

/-- Slice store memory_map[offset..offset+len].copy_from_slice(relocated);
indexing past the end of the map panics in Rust. -/
def copyIntoMap (library : AndroidLibrary) (offset : Nat)
    (relocated : List Nat) : Except ElfLoaderErr AndroidLibrary :=
  if offset + relocated.length ≤ library.memory_map.length then
    .ok { library with memory_map := listWrite library.memory_map offset relocated }
  else
    .error .panicked

/-- AndroidLoader::absolute_reloc: look the entry index up in strings (the
unwrap panics when absent), resolve the name, and store
addend.wrapping_add(symbol) as native-endian bytes at the entry offset. -/
def absolute_reloc (w : Nat) (stubs : StubAddrs) (hooks : List (String × Nat))
    (library : AndroidLibrary) (entry : RelocationEntry) (addend : Nat) :
    Except ElfLoaderErr AndroidLibrary :=
  match library.strings.lookup entry.index with
  | none => .error .panicked
  | some name =>
    let symbol := symbol_finder stubs name library hooks
    let relocated := toNeBytes w (addend + symbol)
    copyIntoMap library entry.offset relocated

/-- AndroidLoader::relative_reloc: store addend.wrapping_add(image base) as
native-endian bytes at the entry offset. -/
def relative_reloc (w : Nat) (library : AndroidLibrary)
    (entry : RelocationEntry) (addend : Nat) :
    Except ElfLoaderErr AndroidLibrary :=
  let relocated := toNeBytes w (addend + library.base)
  copyIntoMap library entry.offset relocated

/-- usize::from_ne_bytes(memory_map[off..off + size_of::<usize>()]): the
in-place addend read of the REL-form branches; the slice panics when it
runs past the end of the map. -/
def readUsize (w : Nat) (mem : List Nat) (off : Nat) : Option Nat :=
  if off + w ≤ mem.length then some (fromNeBytes ((mem.drop off).take w)) else none

/-- One iteration of the loop in ElfLoader::relocate: dispatch on the entry
architecture, source the addend (in place for x86/Arm, explicit for
x86_64/AArch64 with a missing addend reported as UnsupportedRelocation),
then dispatch on the kind, with a wildcard failure. -/
def processEntry (w : Nat) (stubs : StubAddrs) (hooks : List (String × Nat))
    (library : AndroidLibrary) (entry : RelocationEntry) :
    Except ElfLoaderErr AndroidLibrary :=
  match entry.rtype with
  | .x86 relocation =>
    match readUsize w library.memory_map entry.offset with
    | none => .error .panicked
    | some addend =>
      match relocation with
      | .R_386_GLOB_DAT => absolute_reloc w stubs hooks library entry 0
      | .R_386_JMP_SLOT => absolute_reloc w stubs hooks library entry 0
      | .R_386_RELATIVE => relative_reloc w library entry addend
      | .R_386_32 => absolute_reloc w stubs hooks library entry addend
      | _ => .error .unsupportedRelocationEntry
  | .x86_64 relocation =>
    match entry.addend with
    | none => .error .unsupportedRelocationEntry
    | some addend =>
      match relocation with
      | .R_AMD64_JMP_SLOT => absolute_reloc w stubs hooks library entry addend
      | .R_AMD64_GLOB_DAT => absolute_reloc w stubs hooks library entry addend
      | .R_AMD64_64 => absolute_reloc w stubs hooks library entry addend
      | .R_AMD64_RELATIVE => relative_reloc w library entry addend
      | _ => .error .unsupportedRelocationEntry
  | .Arm relocation =>
    match readUsize w library.memory_map entry.offset with
    | none => .error .panicked
    | some addend =>
      match relocation with
      | .R_ARM_GLOB_DAT => absolute_reloc w stubs hooks library entry 0
      | .R_ARM_JUMP_SLOT => absolute_reloc w stubs hooks library entry 0
      | .R_ARM_RELATIVE => relative_reloc w library entry addend
      | .R_ARM_ABS32 => absolute_reloc w stubs hooks library entry addend
      | _ => .error .unsupportedRelocationEntry
  | .AArch64 relocation =>
    match entry.addend with
    | none => .error .unsupportedRelocationEntry
    | some addend =>
      match relocation with
      | .R_AARCH64_JUMP_SLOT => absolute_reloc w stubs hooks library entry addend
      | .R_AARCH64_GLOB_DAT => absolute_reloc w stubs hooks library entry addend
      | .R_AARCH64_ABS64 => absolute_reloc w stubs hooks library entry addend
      | .R_AARCH64_RELATIVE => relative_reloc w library entry addend
      | _ => .error .unsupportedRelocationEntry

/-- ElfLoader::relocate for AndroidLoader: process the entries in order,
stopping at the first failure. The hook snapshot acquired by get_hooks()
(hook_manager.rs is absent from the sources) is the hooks parameter. -/
def relocate (w : Nat) (stubs : StubAddrs) (hooks : List (String × Nat))
    (library : AndroidLibrary) (entries : List RelocationEntry) :
    Except ElfLoaderErr AndroidLibrary :=
  match entries with
  | [] => .ok library
  | entry :: rest =>
    match processEntry w stubs hooks library entry with
    | .ok library2 => relocate w stubs hooks library2 rest
    | .error e => .error e

/-- xmas_elf program header type, restricted to the Load test performed. -/
inductive PType
  | load
  | other
deriving DecidableEq

/-- The {R,W,X} flags of a program header. -/
structure Flags where
  is_read : Bool
  is_write : Bool
  is_execute : Bool
deriving DecidableEq

/-- The fields of a PT_LOAD program header consumed by the loader. -/
structure ProgramHeader where
  typ : PType
  virtual_addr : Nat
  file_size : Nat
  mem_size : Nat
  flags : Flags
deriving DecidableEq

/-- xmas_elf SectionData, restricted to the two dynamic-symbol-table shapes
the loader matches; entries carry the already resolved name and st_value. -/
inductive SectionData
  | dynSymbolTable64 (entries : List ElfSymbol)
  | dynSymbolTable32 (entries : List ElfSymbol)
  | other
deriving DecidableEq

/-- A section together with its resolved name and data. -/
structure SectionView where
  name : String
  data : SectionData
deriving DecidableEq

/-- The min/max fold at the top of ElfLoader::allocate: minimum starts at
usize::MAX and maximum at usize::MIN; for each PT_LOAD header the source
floors the virtual address to start and takes the page ceiling of
start + max(file_size, mem_size) - note it adds to the already floored
start, not to the virtual address itself. -/
def loadMinMax (w ps : Nat) (load_headers : List ProgramHeader) : Nat × Nat :=
  load_headers.foldl
    (fun mm header =>
      if header.typ = PType.load then
        let start := page_floor ps header.virtual_addr
        let stop := page_ceil ps (start + max header.file_size header.mem_size)
        (if start < mm.1 then start else mm.1, if stop > mm.2 then stop else mm.2)
      else mm)
    (usizeMax w, 0)

/-- The for_each over sections of allocate, keeping the last section named
.dynsym (the .gnu.hash section is recorded the same way but never used). -/
def findDynsym (sections : List SectionView) : Option SectionView :=
  sections.foldl (fun acc elem => if elem.name = (".dynsym") then some elem else acc) none

/-- The accumulator of the .dynsym ingestion loop: the two maps plus the
running index i. -/
structure SymMaps where
  symbols : List (String × ElfSymbol)
  strings : List (Nat × String)
  i : Nat
deriving DecidableEq

/-- One step of the .dynsym ingestion loop: insert symbols[name] and
strings[i] (HashMap::insert overwrites, modelled by consing to the front),
then increment i. -/
def symStep (acc : SymMaps) (s : ElfSymbol) : SymMaps :=
  { symbols := (s.name, s) :: acc.symbols
    strings := (acc.i, s.name) :: acc.strings
    i := acc.i + 1 }

/-- The match on the .dynsym section data: both table widths are ingested
identically; any other section data leaves both maps empty. -/
def buildSymbolMaps : SectionData → SymMaps
  | .dynSymbolTable64 entries => entries.foldl symStep ⟨[], [], 0⟩
  | .dynSymbolTable32 entries => entries.foldl symStep ⟨[], [], 0⟩
  | .other => ⟨[], [], 0⟩

/-- ElfLoader::allocate: compute the span, find .dynsym (the unwrap panics
when it is absent), ingest the symbol tables, and create the anonymous
zero-filled mapping of alloc_end - alloc_start bytes whose host address is
the base parameter (a host mapping failure would surface as the ElfParser
error and is not modelled further). -/
def allocate (w ps base : Nat) (load_headers : List ProgramHeader)
    (sections : List SectionView) : Except ElfLoaderErr AndroidLibrary :=
  let mm := loadMinMax w ps load_headers
  let alloc_start := page_floor ps mm.1
  let alloc_end := page_ceil ps mm.2
  match findDynsym sections with
  | none => .error .panicked
  | some sec =>
    let maps := buildSymbolMaps sec.data
    .ok { memory_map := List.replicate (alloc_end - alloc_start) 0
          base := base
          symbols := maps.symbols
          strings := maps.strings }

/-- The MAX_PAGE_SIZE constant: 4096 under cfg(not(target_arch = aarch64)),
65536 under cfg(target_arch = aarch64). -/
def MAX_PAGE_SIZE (aarch64 : Bool) : Nat := if aarch64 then 65536 else 4096

/-- region::Protection::NONE bits. -/
def Protection.NONE : Nat := 0

/-- region::Protection::READ bits. -/
def Protection.READ : Nat := 1

/-- region::Protection::WRITE bits. -/
def Protection.WRITE : Nat := 2

/-- region::Protection::EXECUTE bits. -/
def Protection.EXECUTE : Nat := 4

/-- ElfLoader::load for one PT_LOAD header: copy the segment bytes into the
image at virtual_addr (the slice panics on a length mismatch or overrun),
and compute the protection that region::protect applies to the page span:
each bit is set when the segment flag is set or the host page is larger
than MAX_PAGE_SIZE. Returns the updated library and the protection bits. -/
def loadSegment (ps : Nat) (aarch64 : Bool) (library : AndroidLibrary)
    (program_header : ProgramHeader) (region : List Nat) :
    Except ElfLoaderErr (AndroidLibrary × Nat) :=
  let virtual_addr := program_header.virtual_addr
  let file_size := program_header.file_size
  let is_standard_page := decide (ps ≤ MAX_PAGE_SIZE aarch64)
  let flags := program_header.flags
  let prot0 := Protection.NONE
  let prot1 := if flags.is_read || !is_standard_page then prot0 ||| Protection.READ else prot0
  let prot2 := if flags.is_write || !is_standard_page then prot1 ||| Protection.WRITE else prot1
  let prot3 := if flags.is_execute || !is_standard_page then prot2 ||| Protection.EXECUTE else prot2
  if region.length = file_size ∧ virtual_addr + file_size ≤ library.memory_map.length then
    .ok ({ library with memory_map := listWrite library.memory_map virtual_addr region }, prot3)
  else
    .error .panicked

/-- Word size the claims assign to an entry, the ELF class of its
architecture; stated from the spec for comparison with the code, which
uses the host word size instead. -/
def archWordSize : RelocationType → Nat
  | .x86 _ => 4
  | .Arm _ => 4
  | .x86_64 _ => 8
  | .AArch64 _ => 8

/-- The kinds inside the dispatch table of relocate. -/
def supportedKind : RelocationType → Bool
  | .x86 r =>
    match r with
    | .R_386_GLOB_DAT | .R_386_JMP_SLOT | .R_386_RELATIVE | .R_386_32 => true
    | _ => false
  | .x86_64 r =>
    match r with
    | .R_AMD64_JMP_SLOT | .R_AMD64_GLOB_DAT | .R_AMD64_64 | .R_AMD64_RELATIVE => true
    | _ => false
  | .Arm r =>
    match r with
    | .R_ARM_GLOB_DAT | .R_ARM_JUMP_SLOT | .R_ARM_RELATIVE | .R_ARM_ABS32 => true
    | _ => false
  | .AArch64 r =>
    match r with
    | .R_AARCH64_JUMP_SLOT | .R_AARCH64_GLOB_DAT | .R_AARCH64_ABS64 | .R_AARCH64_RELATIVE => true
    | _ => false

/-- The relative relocation kinds of the dispatch table. -/
def relativeKind : RelocationType → Bool
  | .x86 .R_386_RELATIVE => true
  | .x86_64 .R_AMD64_RELATIVE => true
  | .Arm .R_ARM_RELATIVE => true
  | .AArch64 .R_AARCH64_RELATIVE => true
  | _ => false

/-- The RELA-form architectures, whose addend is the explicit field. -/
def relaArch : RelocationType → Bool
  | .x86_64 _ => true
  | .AArch64 _ => true
  | _ => false

/-- The REL-form architectures, whose addend is read in place. -/
def relForm : RelocationType → Bool
  | .x86 _ => true
  | .Arm _ => true
  | _ => false

/-- The addend an entry sources, per the per-architecture branches of
relocate: in place for REL-form x86/Arm, the explicit field for RELA-form
x86_64/AArch64. -/
def entryAddend (w : Nat) (library : AndroidLibrary) (entry : RelocationEntry) : Option Nat :=
  match entry.rtype with
  | .x86 _ => readUsize w library.memory_map entry.offset
  | .Arm _ => readUsize w library.memory_map entry.offset
  | .x86_64 _ => entry.addend
  | .AArch64 _ => entry.addend

/-- Observer: the image length of a successful allocate result. -/
def memLen : Except ElfLoaderErr AndroidLibrary → Option Nat
  | .ok l => some l.memory_map.length
  | .error _ => none

/-- Observer: the byte at index i of a successful result's image. -/
def memAt (r : Except ElfLoaderErr AndroidLibrary) (i : Nat) : Option Nat :=
  match r with
  | .ok l => l.memory_map.get? i
  | .error _ => none

/-- Observer: the error of a failed result. -/
def relocErr : Except ElfLoaderErr AndroidLibrary → Option ElfLoaderErr
  | .ok _ => none
  | .error e => some e

/-! Helper lemmas about the embedded operations. -/

theorem toNeBytes_length (w v : Nat) : (toNeBytes w v).length = w := by
  simp [toNeBytes]

theorem copyIntoMap_ok {library lib2 : AndroidLibrary} {offset : Nat}
    {relocated : List Nat}
    (h : copyIntoMap library offset relocated = .ok lib2) :
    offset + relocated.length ≤ library.memory_map.length ∧
      lib2 = { library with memory_map := listWrite library.memory_map offset relocated } := by
  simp only [copyIntoMap] at h
  split at h
  · exact ⟨by assumption, (Except.ok.inj h).symm⟩
  · simp at h

theorem readUsize_some {w : Nat} {mem : List Nat} {off a : Nat}
    (h : readUsize w mem off = some a) :
    off + w ≤ mem.length ∧ a = fromNeBytes ((mem.drop off).take w) := by
  simp only [readUsize] at h
  split at h
  · exact ⟨by assumption, (Option.some.inj h).symm⟩
  · simp at h

theorem readUsize_of_le {w : Nat} {mem : List Nat} {off : Nat}
    (h : off + w ≤ mem.length) :
    readUsize w mem off = some (fromNeBytes ((mem.drop off).take w)) := by
  simp [readUsize, h]

theorem absolute_reloc_ok {w : Nat} {stubs : StubAddrs} {hooks : List (String × Nat)}
    {library lib2 : AndroidLibrary} {entry : RelocationEntry} {addend : Nat}
    (h : absolute_reloc w stubs hooks library entry addend = .ok lib2) :
    ∃ name, library.strings.lookup entry.index = some name ∧
      entry.offset + w ≤ library.memory_map.length ∧
      lib2 = { library with memory_map := listWrite library.memory_map entry.offset (toNeBytes w (addend + symbol_finder stubs name library hooks)) } := by
  simp only [absolute_reloc] at h
  cases hl : library.strings.lookup entry.index with
  | none => rw [hl] at h; simp at h
  | some name =>
    rw [hl] at h
    obtain ⟨hb, he⟩ := copyIntoMap_ok h
    rw [toNeBytes_length] at hb
    exact ⟨name, rfl, hb, he⟩

theorem relative_reloc_ok {w : Nat} {library lib2 : AndroidLibrary}
    {entry : RelocationEntry} {addend : Nat}
    (h : relative_reloc w library entry addend = .ok lib2) :
    entry.offset + w ≤ library.memory_map.length ∧
      lib2 = { library with memory_map := listWrite library.memory_map entry.offset (toNeBytes w (addend + library.base)) } := by
  obtain ⟨hb, he⟩ := copyIntoMap_ok h
  rw [toNeBytes_length] at hb
  exact ⟨hb, he⟩

theorem absolute_reloc_of_wf {w : Nat} {stubs : StubAddrs} {hooks : List (String × Nat)}
    {library : AndroidLibrary} {entry : RelocationEntry} {addend : Nat} {name : String}
    (hn : library.strings.lookup entry.index = some name)
    (hb : entry.offset + w ≤ library.memory_map.length) :
    absolute_reloc w stubs hooks library entry addend =
      .ok { library with memory_map := listWrite library.memory_map entry.offset (toNeBytes w (addend + symbol_finder stubs name library hooks)) } := by
  simp [absolute_reloc, hn, copyIntoMap, toNeBytes_length, hb]

theorem relative_reloc_of_wf {w : Nat} {library : AndroidLibrary}
    {entry : RelocationEntry} {addend : Nat}
    (hb : entry.offset + w ≤ library.memory_map.length) :
    relative_reloc w library entry addend =
      .ok { library with memory_map := listWrite library.memory_map entry.offset (toNeBytes w (addend + library.base)) } := by
  simp [relative_reloc, copyIntoMap, toNeBytes_length, hb]

theorem processEntry_ok_write {w : Nat} {stubs : StubAddrs} {hooks : List (String × Nat)}
    {library lib2 : AndroidLibrary} {entry : RelocationEntry}
    (h : processEntry w stubs hooks library entry = .ok lib2) :
    ∃ v, entry.offset + w ≤ library.memory_map.length ∧
      lib2 = { library with memory_map := listWrite library.memory_map entry.offset (toNeBytes w v) } := by
  unfold processEntry at h
  repeat' split at h
  all_goals first
    | simp at h
    | exact (relative_reloc_ok h).elim (fun hb he => ⟨_, hb, he⟩)
    | exact (absolute_reloc_ok h).elim (fun name hn => ⟨_, hn.2.1, hn.2.2⟩)

theorem processEntry_ok_shape {w : Nat} {stubs : StubAddrs} {hooks : List (String × Nat)}
    {library lib2 : AndroidLibrary} {entry : RelocationEntry}
    (h : processEntry w stubs hooks library entry = .ok lib2) :
    lib2.memory_map.length = library.memory_map.length ∧
      lib2.strings = library.strings ∧ lib2.base = library.base := by
  obtain ⟨v, hb, he⟩ := processEntry_ok_write h
  subst he
  refine ⟨?_, rfl, rfl⟩
  simp only [listWrite, List.length_append, List.length_take, List.length_drop,
    toNeBytes_length]
  omega

theorem processEntry_ok_supported {w : Nat} {stubs : StubAddrs} {hooks : List (String × Nat)}
    {library lib2 : AndroidLibrary} {entry : RelocationEntry}
    (h : processEntry w stubs hooks library entry = .ok lib2) :
    supportedKind entry.rtype = true := by
  unfold processEntry at h
  repeat' split at h
  all_goals first
    | simp at h
    | simp_all [supportedKind]

theorem processEntry_wf_err {w : Nat} {stubs : StubAddrs} {hooks : List (String × Nat)}
    {library : AndroidLibrary} {entry : RelocationEntry} {err : ElfLoaderErr}
    (hb : entry.offset + w ≤ library.memory_map.length)
    (hs : ∃ n, library.strings.lookup entry.index = some n)
    (h : processEntry w stubs hooks library entry = .error err) :
    err = ElfLoaderErr.unsupportedRelocationEntry := by
  obtain ⟨n, hn⟩ := hs
  unfold processEntry at h
  repeat' split at h
  all_goals solve
    | exact (Except.error.inj h).symm
    | (rw [absolute_reloc_of_wf hn hb] at h; simp at h)
    | (rw [relative_reloc_of_wf hb] at h; simp at h)
    | simp_all [readUsize_of_le hb]

theorem processEntry_x86_relative {w : Nat} {stubs : StubAddrs}
    {hooks : List (String × Nat)} {library lib2 : AndroidLibrary}
    {entry : RelocationEntry}
    (hrt : entry.rtype = RelocationType.x86 X86RelocationType.R_386_RELATIVE)
    (h : processEntry w stubs hooks library entry = .ok lib2) :
    lib2 = { library with memory_map := listWrite library.memory_map entry.offset (toNeBytes w (fromNeBytes ((library.memory_map.drop entry.offset).take w) + library.base)) } := by
  simp only [processEntry, hrt] at h
  cases hr : readUsize w library.memory_map entry.offset with
  | none => simp [hr] at h
  | some a =>
    simp only [hr] at h
    obtain ⟨hb2, ha⟩ := readUsize_some hr
    subst ha
    exact (relative_reloc_ok h).2

theorem processEntry_Arm_relative {w : Nat} {stubs : StubAddrs}
    {hooks : List (String × Nat)} {library lib2 : AndroidLibrary}
    {entry : RelocationEntry}
    (hrt : entry.rtype = RelocationType.Arm ArmRelocationType.R_ARM_RELATIVE)
    (h : processEntry w stubs hooks library entry = .ok lib2) :
    lib2 = { library with memory_map := listWrite library.memory_map entry.offset (toNeBytes w (fromNeBytes ((library.memory_map.drop entry.offset).take w) + library.base)) } := by
  simp only [processEntry, hrt] at h
  cases hr : readUsize w library.memory_map entry.offset with
  | none => simp [hr] at h
  | some a =>
    simp only [hr] at h
    obtain ⟨hb2, ha⟩ := readUsize_some hr
    subst ha
    exact (relative_reloc_ok h).2

theorem processEntry_rela_none {w : Nat} {stubs : StubAddrs}
    {hooks : List (String × Nat)} {entry : RelocationEntry}
    (harch : relaArch entry.rtype = true) (ha : entry.addend = none) :
    ∀ library : AndroidLibrary,
      processEntry w stubs hooks library entry = .error .unsupportedRelocationEntry := by
  intro library
  cases hrt : entry.rtype with
  | x86 r => simp [relaArch, hrt] at harch
  | Arm r => simp [relaArch, hrt] at harch
  | x86_64 r => simp [processEntry, hrt, ha]
  | AArch64 r => simp [processEntry, hrt, ha]

theorem relocate_ne_ok_of_mem {w : Nat} {stubs : StubAddrs}
    {hooks : List (String × Nat)} {e : RelocationEntry}
    (hbad : ∀ library : AndroidLibrary,
      ∃ err, processEntry w stubs hooks library e = .error err) :
    ∀ entries : List RelocationEntry, e ∈ entries →
      ∀ library lib2 : AndroidLibrary,
        relocate w stubs hooks library entries ≠ .ok lib2 := by
  intro entries
  induction entries with
  | nil => intro he; cases he
  | cons a rest ih =>
    intro he library lib2 hok
    cases hpe : processEntry w stubs hooks library a with
    | error err => simp [relocate, hpe] at hok
    | ok lib1 =>
      simp only [relocate, hpe] at hok
      cases he with
      | head =>
        obtain ⟨err, herr⟩ := hbad library
        rw [herr] at hpe
        cases hpe
      | tail _ hmem => exact ih hmem lib1 lib2 hok

/-! Claim theorems. -/

/-- Claim C4 (confirmed): whenever the hook snapshot contains a symbol name,
symbol_finder returns the hooked address, whatever the form of the name
(pthread names and the dl names included, as the witness shows). -/
theorem c4_hook_precedence (stubs : StubAddrs) (hooks : List (String × Nat))
    (library : AndroidLibrary) (name : String) (addr : Nat)
    (h : hooks.lookup name = some addr) :
    symbol_finder stubs name library hooks = addr := by
  simp [symbol_finder, h]

/-- Claim C4 witness: hooked pthread_create and dlopen resolve to the hooked
addresses, not to the pthread stub or the dlopen stub. -/
theorem c4_hook_precedence_witness :
    symbol_finder ⟨1, 2, 3, 4, 5⟩ ("pthread_create") ⟨[], 0, [], []⟩
        [(("pthread_create"), 91)] = 91 ∧
      symbol_finder ⟨1, 2, 3, 4, 5⟩ ("dlopen") ⟨[], 0, [], []⟩
        [(("dlopen"), 92)] = 92 :=
  ⟨c4_hook_precedence ⟨1, 2, 3, 4, 5⟩ [(("pthread_create"), 91)] ⟨[], 0, [], []⟩
      ("pthread_create") 91 (by decide),
    c4_hook_precedence ⟨1, 2, 3, 4, 5⟩ [(("dlopen"), 92)] ⟨[], 0, [], []⟩
      ("dlopen") 92 (by decide)⟩

/-- Claim C6 (confirmed): a name beginning with pthread_ that is not hooked
resolves to the pthread stub address, and the pthread stub returns 0. -/
theorem c6_pthread_default (stubs : StubAddrs) (hooks : List (String × Nat))
    (library : AndroidLibrary) (name : String)
    (h1 : strStartsWith name ("pthread_") = true)
    (h2 : hooks.lookup name = none) :
    symbol_finder stubs name library hooks = stubs.pthread_stub ∧ pthread_stub = 0 := by
  refine ⟨?_, rfl⟩
  simp [symbol_finder, h2, get_libc_symbol, h1]

/-- Claim C6 witness: pthread_mutex_lock with an empty hook snapshot. -/
theorem c6_pthread_default_witness :
    symbol_finder ⟨7, 2, 3, 4, 5⟩ ("pthread_mutex_lock") ⟨[], 0, [], []⟩ [] =
        (⟨7, 2, 3, 4, 5⟩ : StubAddrs).pthread_stub ∧ pthread_stub = 0 :=
  c6_pthread_default ⟨7, 2, 3, 4, 5⟩ [] ⟨[], 0, [], []⟩ ("pthread_mutex_lock")
    (by decide) rfl

/-- Claim C8 (confirmed): symbol_finder is insensitive to the library
argument - two loads with arbitrary, different symbol and string tables
resolve every name identically, so the resolver never consults
library.symbols; the proof is definitional because the body never touches
the argument. -/
theorem c8_resolver_ignores_library (stubs : StubAddrs) (name : String)
    (lib1 lib2 : AndroidLibrary) (hooks : List (String × Nat)) :
    symbol_finder stubs name lib1 hooks = symbol_finder stubs name lib2 hooks := rfl

/-- Dynsym search over a section list without a .dynsym name yields none. -/
theorem findDynsym_none (sections : List SectionView)
    (h : ∀ s ∈ sections, s.name ≠ (".dynsym")) : findDynsym sections = none := by
  induction sections with
  | nil => rfl
  | cons s rest ih =>
    have hs : s.name ≠ (".dynsym") := h s (by simp)
    have hrest : ∀ x ∈ rest, x.name ≠ (".dynsym") := fun x hx => h x (by simp [hx])
    simp only [findDynsym, List.foldl_cons, if_neg hs]
    exact ih hrest

/-- Claim C10 (confirmed): with no section named .dynsym, allocate panics at
the unwrap of the empty option - modelled by the panicked outcome, distinct
from every returned error (in particular from elfParser) and from any ok
library, so load_library neither returns a handle nor an error result. -/
theorem c10_missing_dynsym_panics (w ps base : Nat)
    (load_headers : List ProgramHeader) (sections : List SectionView)
    (h : ∀ s ∈ sections, s.name ≠ (".dynsym")) :
    allocate w ps base load_headers sections = .error .panicked := by
  simp [allocate, findDynsym_none sections h]

/-- Claim C10 witness: an ELF view whose only section is .text. -/
theorem c10_missing_dynsym_panics_witness :
    allocate 8 4096 0 [] [⟨".text", SectionData.other⟩] = .error .panicked :=
  c10_missing_dynsym_panics 8 4096 0 [] [⟨".text", SectionData.other⟩] (by decide)

/-- Claim C2 (code bug): the source computes the segment end from the
already floored start (page_ceil ps (page_floor ps vaddr + max fsz msz)),
not from the virtual address as the claim and the spec formula state. At a
PT_LOAD header with vaddr 6144, file_size = mem_size = 4096 and page size
4096, allocate produces a 4096-byte image (alloc_start 4096, alloc_end
8192), while the claimed formula yields alloc_end = page_ceil 4096 10240 =
12288 and an 8192-byte image; the segment bytes [6144, 10240) overrun the
image the code allocates. -/
theorem c2_alloc_end_uses_floored_start :
    memLen (allocate 8 4096 0 [⟨PType.load, 6144, 4096, 4096, ⟨true, false, false⟩⟩]
        [⟨".dynsym", SectionData.dynSymbolTable64 []⟩]) = some 4096 ∧
      page_ceil 4096 (6144 + max 4096 4096) = 12288 ∧
      page_floor 4096 6144 = 4096 ∧
      (12288 - 4096 : Nat) ≠ 4096 := by
  have hall : allocate 8 4096 0 [⟨PType.load, 6144, 4096, 4096, ⟨true, false, false⟩⟩]
      [⟨".dynsym", SectionData.dynSymbolTable64 []⟩] =
      .ok ⟨List.replicate 4096 0, 0, [], []⟩ := rfl
  refine ⟨?_, by decide, by decide, by decide⟩
  rw [hall]
  show some (List.replicate 4096 (0 : Nat)).length = some 4096
  rw [List.length_replicate]

/-- Claim C1 counterexample: the claim says an x86 entry patches 4 bytes
(archWordSize of its ELF class), but on a 64-bit host (w = 8) an x86
R_386_RELATIVE entry at offset 0 with image base 2^32 changes byte 4 of the
image from 0 to 1 - the patch is 8 bytes wide. -/
theorem c1_counterexample :
    archWordSize (RelocationType.x86 X86RelocationType.R_386_RELATIVE) = 4 ∧
      memAt (relocate 8 ⟨0, 0, 0, 0, 0⟩ [] ⟨List.replicate 12 0, 4294967296, [], []⟩
        [⟨0, 0, RelocationType.x86 X86RelocationType.R_386_RELATIVE, none⟩]) 4 = some 1 ∧
      (List.replicate 12 (0 : Nat)).get? 4 = some 0 := by
  refine ⟨rfl, by decide, by decide⟩

/-- Claim C1 (corrected, amended): every successful patch writes exactly one
host machine word - w = size_of usize bytes - at the entry offset, whatever
the entry architecture; REL-form entries (x86 and Arm) read their in-place
addend as one host word, so their offset + w must lie within the image; and
for the REL-form relative kinds the written word is that in-place word plus
the image base. -/
theorem c1_patch_writes_host_word (w : Nat) (stubs : StubAddrs)
    (hooks : List (String × Nat)) (library lib2 : AndroidLibrary)
    (entry : RelocationEntry)
    (hok : processEntry w stubs hooks library entry = .ok lib2) :
    (∃ v, entry.offset + w ≤ library.memory_map.length ∧
      lib2.memory_map = listWrite library.memory_map entry.offset (toNeBytes w v)) ∧
    (relForm entry.rtype = true → entry.offset + w ≤ library.memory_map.length) ∧
    (entry.rtype = RelocationType.x86 X86RelocationType.R_386_RELATIVE ∨
        entry.rtype = RelocationType.Arm ArmRelocationType.R_ARM_RELATIVE →
      lib2.memory_map = listWrite library.memory_map entry.offset
        (toNeBytes w (fromNeBytes ((library.memory_map.drop entry.offset).take w) + library.base))) := by
  obtain ⟨v, hb, he⟩ := processEntry_ok_write hok
  refine ⟨⟨v, hb, by rw [he]⟩, fun _ => hb, fun hdisj => ?_⟩
  cases hdisj with
  | inl h1 => rw [processEntry_x86_relative h1 hok]
  | inr h2 => rw [processEntry_Arm_relative h2 hok]

/-- Claim C1 witness: an x86 R_386_RELATIVE entry on a w = 8 host. -/
theorem c1_patch_writes_host_word_witness :
    (∃ v, 0 + 8 ≤ (List.replicate 8 (0 : Nat)).length ∧
      ([0, 0, 0, 0, 1, 0, 0, 0] : List Nat) =
        listWrite (List.replicate 8 0) 0 (toNeBytes 8 v)) ∧
    (relForm (RelocationType.x86 X86RelocationType.R_386_RELATIVE) = true →
      0 + 8 ≤ (List.replicate 8 (0 : Nat)).length) ∧
    (RelocationType.x86 X86RelocationType.R_386_RELATIVE =
        RelocationType.x86 X86RelocationType.R_386_RELATIVE ∨
      RelocationType.x86 X86RelocationType.R_386_RELATIVE =
        RelocationType.Arm ArmRelocationType.R_ARM_RELATIVE →
      ([0, 0, 0, 0, 1, 0, 0, 0] : List Nat) =
        listWrite (List.replicate 8 0) 0
          (toNeBytes 8 (fromNeBytes (((List.replicate 8 (0 : Nat)).drop 0).take 8) + 4294967296))) :=
  c1_patch_writes_host_word 8 ⟨0, 0, 0, 0, 0⟩ []
    ⟨List.replicate 8 0, 4294967296, [], []⟩
    ⟨[0, 0, 0, 0, 1, 0, 0, 0], 4294967296, [], []⟩
    ⟨0, 0, RelocationType.x86 X86RelocationType.R_386_RELATIVE, none⟩ rfl

/-- Claim C3 counterexample: a relocation list whose only entry has the
unsupported kind R_386_PC32 but whose offset lies outside the (empty) image
makes relocate panic at the in-place addend slice - the x86 branch reads the
addend before matching the kind - instead of failing with the
UnsupportedRelocation error the claim demands. -/
theorem c3_counterexample :
    relocErr (relocate 8 ⟨0, 0, 0, 0, 0⟩ [] ⟨[], 0, [], []⟩
        [⟨0, 0, RelocationType.x86 X86RelocationType.R_386_PC32, none⟩]) =
        some ElfLoaderErr.panicked ∧
      ElfLoaderErr.panicked ≠ ElfLoaderErr.unsupportedRelocationEntry := by
  exact ⟨rfl, by decide⟩

/-- Claim C3 (corrected, amended): when every entry of the list has its
patch site inside the image (offset + w within bounds) and its symbol index
present in the strings map, a list containing an entry of unsupported kind
makes relocate fail with the UnsupportedRelocation error, so no library
value is produced; outside those side conditions the load dies by panic at
an out-of-bounds slice or failed unwrap, so no handle escapes either way. -/
theorem c3_unsupported_kind_fails (w : Nat) (stubs : StubAddrs)
    (hooks : List (String × Nat)) (library : AndroidLibrary)
    (entries : List RelocationEntry) (e : RelocationEntry)
    (hwf : ∀ x ∈ entries, x.offset + w ≤ library.memory_map.length ∧
      ∃ n, library.strings.lookup x.index = some n)
    (he : e ∈ entries) (hk : supportedKind e.rtype = false) :
    relocate w stubs hooks library entries = .error .unsupportedRelocationEntry := by
  revert hwf he
  induction entries generalizing library with
  | nil =>
    intro _ he
    cases he
  | cons a rest ih =>
    intro hwf he
    have hwa := hwf a (List.mem_cons_self a rest)
    cases hpe : processEntry w stubs hooks library a with
    | error err =>
      have herr : err = ElfLoaderErr.unsupportedRelocationEntry :=
        processEntry_wf_err hwa.1 hwa.2 hpe
      simp [relocate, hpe, herr]
    | ok lib1 =>
      have hne : e ≠ a := by
        intro hea
        subst hea
        have hsup := processEntry_ok_supported hpe
        rw [hsup] at hk
        cases hk
      have hrest : e ∈ rest := by
        cases he with
        | head => exact absurd rfl hne
        | tail _ hmem => exact hmem
      obtain ⟨hlen, hstr, _⟩ := processEntry_ok_shape hpe
      have hwf1 : ∀ x ∈ rest, x.offset + w ≤ lib1.memory_map.length ∧
          ∃ n, lib1.strings.lookup x.index = some n := by
        intro x hx
        obtain ⟨hx1, hx2⟩ := hwf x (List.mem_cons_of_mem a hx)
        rw [hlen, hstr]
        exact ⟨hx1, hx2⟩
      simp only [relocate, hpe]
      exact ih lib1 hwf1 hrest

/-- Claim C3 witness: a well-formed single-entry list of unsupported kind. -/
theorem c3_unsupported_kind_fails_witness :
    relocate 8 ⟨0, 0, 0, 0, 0⟩ [] ⟨List.replicate 8 0, 0, [], [(0, "f")]⟩
        [⟨0, 0, RelocationType.x86 X86RelocationType.R_386_PC32, none⟩] =
      .error .unsupportedRelocationEntry :=
  c3_unsupported_kind_fails 8 ⟨0, 0, 0, 0, 0⟩ []
    ⟨List.replicate 8 0, 0, [], [(0, "f")]⟩
    [⟨0, 0, RelocationType.x86 X86RelocationType.R_386_PC32, none⟩]
    ⟨0, 0, RelocationType.x86 X86RelocationType.R_386_PC32, none⟩
    (by intro x hx
        simp at hx
        subst hx
        exact ⟨by decide, ⟨"f", by decide⟩⟩)
    (by decide) (by decide)

/-- Claim C9 (confirmed): a RELA-form entry (x86_64 or AArch64) whose
explicit addend is absent is rejected with the UnsupportedRelocation error
before its kind is even examined - so also for supported kinds - and no
relocation list containing such an entry can ever produce a library. -/
theorem c9_missing_addend_fails (w : Nat) (stubs : StubAddrs)
    (hooks : List (String × Nat)) (library lib2 : AndroidLibrary)
    (entries : List RelocationEntry) (e : RelocationEntry)
    (harch : relaArch e.rtype = true) (ha : e.addend = none) (he : e ∈ entries) :
    processEntry w stubs hooks library e = .error .unsupportedRelocationEntry ∧
      relocate w stubs hooks library entries ≠ .ok lib2 := by
  refine ⟨processEntry_rela_none harch ha library, ?_⟩
  exact relocate_ne_ok_of_mem
    (fun l => ⟨ElfLoaderErr.unsupportedRelocationEntry, processEntry_rela_none harch ha l⟩)
    entries he library lib2

/-- Claim C9 witness: an addend-less R_AMD64_64 entry, a supported kind. -/
theorem c9_missing_addend_fails_witness :
    processEntry 8 ⟨0, 0, 0, 0, 0⟩ [] ⟨[], 0, [], []⟩
        ⟨0, 0, RelocationType.x86_64 X8664RelocationType.R_AMD64_64, none⟩ =
        .error .unsupportedRelocationEntry ∧
      relocate 8 ⟨0, 0, 0, 0, 0⟩ [] ⟨[], 0, [], []⟩
        [⟨0, 0, RelocationType.x86_64 X8664RelocationType.R_AMD64_64, none⟩] ≠
        .ok ⟨[], 0, [], []⟩ :=
  c9_missing_addend_fails 8 ⟨0, 0, 0, 0, 0⟩ [] ⟨[], 0, [], []⟩ ⟨[], 0, [], []⟩
    [⟨0, 0, RelocationType.x86_64 X8664RelocationType.R_AMD64_64, none⟩]
    ⟨0, 0, RelocationType.x86_64 X8664RelocationType.R_AMD64_64, none⟩
    (by decide) rfl (by decide)

/-- Claim C5 (confirmed): for a relative-kind entry the relocate step never
consults the symbol resolver or the hook snapshot - the step is literally
insensitive to both - and a successful patch stores image_base + addend,
with the addend sourced per the entry form (in place for REL, the explicit
field for RELA), as one host-endian word at image[offset .. offset + w]. -/
theorem c5_relative_write (w : Nat) (stubs stubs2 : StubAddrs)
    (hooks hooks2 : List (String × Nat)) (library lib2 : AndroidLibrary)
    (entry : RelocationEntry) (hrel : relativeKind entry.rtype = true) :
    processEntry w stubs hooks library entry = processEntry w stubs2 hooks2 library entry ∧
    (processEntry w stubs hooks library entry = .ok lib2 →
      ∃ a, entryAddend w library entry = some a ∧
        lib2.memory_map = listWrite library.memory_map entry.offset (toNeBytes w (a + library.base))) := by
  cases hrt : entry.rtype with
  | x86 r =>
    cases r
    case R_386_RELATIVE =>
      constructor
      · simp only [processEntry, hrt]
      · intro hok
        have h2 := processEntry_x86_relative hrt hok
        obtain ⟨v, hb, _⟩ := processEntry_ok_write hok
        refine ⟨fromNeBytes ((library.memory_map.drop entry.offset).take w), ?_, ?_⟩
        · simp [entryAddend, hrt, readUsize_of_le hb]
        · rw [h2]
    all_goals simp [relativeKind, hrt] at hrel
  | Arm r =>
    cases r
    case R_ARM_RELATIVE =>
      constructor
      · simp only [processEntry, hrt]
      · intro hok
        have h2 := processEntry_Arm_relative hrt hok
        obtain ⟨v, hb, _⟩ := processEntry_ok_write hok
        refine ⟨fromNeBytes ((library.memory_map.drop entry.offset).take w), ?_, ?_⟩
        · simp [entryAddend, hrt, readUsize_of_le hb]
        · rw [h2]
    all_goals simp [relativeKind, hrt] at hrel
  | x86_64 r =>
    cases r
    case R_AMD64_RELATIVE =>
      constructor
      · cases ha : entry.addend with
        | none => simp [processEntry, hrt, ha]
        | some a => simp [processEntry, hrt, ha]
      · intro hok
        cases ha : entry.addend with
        | none => simp [processEntry, hrt, ha] at hok
        | some a =>
          simp only [processEntry, hrt, ha] at hok
          refine ⟨a, by simp [entryAddend, hrt, ha], ?_⟩
          rw [(relative_reloc_ok hok).2]
    all_goals simp [relativeKind, hrt] at hrel
  | AArch64 r =>
    cases r
    case R_AARCH64_RELATIVE =>
      constructor
      · cases ha : entry.addend with
        | none => simp [processEntry, hrt, ha]
        | some a => simp [processEntry, hrt, ha]
      · intro hok
        cases ha : entry.addend with
        | none => simp [processEntry, hrt, ha] at hok
        | some a =>
          simp only [processEntry, hrt, ha] at hok
          refine ⟨a, by simp [entryAddend, hrt, ha], ?_⟩
          rw [(relative_reloc_ok hok).2]
    all_goals simp [relativeKind, hrt] at hrel

/-- Claim C5 witness: an x86_64 R_AMD64_RELATIVE entry with addend 3 over a
base-16 image, patched identically under two different stub and hook sets. -/
theorem c5_relative_write_witness :
    processEntry 8 ⟨1, 2, 3, 4, 5⟩ [(("x"), 1)]
        ⟨List.replicate 8 0, 16, [], []⟩
        ⟨0, 0, RelocationType.x86_64 X8664RelocationType.R_AMD64_RELATIVE, some 3⟩ =
      processEntry 8 ⟨6, 7, 8, 9, 10⟩ []
        ⟨List.replicate 8 0, 16, [], []⟩
        ⟨0, 0, RelocationType.x86_64 X8664RelocationType.R_AMD64_RELATIVE, some 3⟩ ∧
    (processEntry 8 ⟨1, 2, 3, 4, 5⟩ [(("x"), 1)]
        ⟨List.replicate 8 0, 16, [], []⟩
        ⟨0, 0, RelocationType.x86_64 X8664RelocationType.R_AMD64_RELATIVE, some 3⟩ =
        .ok ⟨[19, 0, 0, 0, 0, 0, 0, 0], 16, [], []⟩ →
      ∃ a, entryAddend 8 ⟨List.replicate 8 0, 16, [], []⟩
          ⟨0, 0, RelocationType.x86_64 X8664RelocationType.R_AMD64_RELATIVE, some 3⟩ = some a ∧
        ([19, 0, 0, 0, 0, 0, 0, 0] : List Nat) =
          listWrite (List.replicate 8 0) 0 (toNeBytes 8 (a + 16))) :=
  c5_relative_write 8 ⟨1, 2, 3, 4, 5⟩ ⟨6, 7, 8, 9, 10⟩ [(("x"), 1)] []
    ⟨List.replicate 8 0, 16, [], []⟩ ⟨[19, 0, 0, 0, 0, 0, 0, 0], 16, [], []⟩
    ⟨0, 0, RelocationType.x86_64 X8664RelocationType.R_AMD64_RELATIVE, some 3⟩
    (by decide)

/-- Claim C7 (confirmed): the protection loadSegment computes for the
segment page span is READ, WRITE and EXECUTE together whenever the host
page size exceeds MAX_PAGE_SIZE (4096 off aarch64, 65536 on aarch64),
whatever the segment flags; otherwise it is exactly the union of the bits
of the set flags. -/
theorem c7_large_page_compensation (ps : Nat) (aarch64 : Bool)
    (library : AndroidLibrary) (program_header : ProgramHeader)
    (region : List Nat) (lib2 : AndroidLibrary) (prot : Nat)
    (h : loadSegment ps aarch64 library program_header region = .ok (lib2, prot)) :
    (MAX_PAGE_SIZE aarch64 < ps →
      prot = (Protection.READ ||| Protection.WRITE ||| Protection.EXECUTE)) ∧
    (ps ≤ MAX_PAGE_SIZE aarch64 →
      prot = ((if program_header.flags.is_read then Protection.READ else Protection.NONE) |||
        (if program_header.flags.is_write then Protection.WRITE else Protection.NONE) |||
        (if program_header.flags.is_execute then Protection.EXECUTE else Protection.NONE))) := by
  simp only [loadSegment] at h
  split at h
  · rw [Except.ok.injEq, Prod.mk.injEq] at h
    obtain ⟨hlib, hprot⟩ := h
    subst hprot
    constructor
    · intro hps
      have hd : decide (ps ≤ MAX_PAGE_SIZE aarch64) = false :=
        decide_eq_false (Nat.not_le.mpr hps)
      simp [hd, Protection.NONE, Protection.READ, Protection.WRITE, Protection.EXECUTE]
    · intro hps
      have hd : decide (ps ≤ MAX_PAGE_SIZE aarch64) = true := decide_eq_true hps
      simp only [hd, Bool.not_true, Bool.or_false]
      cases program_header.flags.is_read <;> cases program_header.flags.is_write <;>
        cases program_header.flags.is_execute <;> decide
  · simp at h

/-- Claim C7 witness: a zero-length read-only segment under a 16384-byte
host page on a non-aarch64 host gets READ, WRITE and EXECUTE, and the same
segment under a 4096-byte host page gets exactly READ. -/
theorem c7_large_page_compensation_witness :
    ((MAX_PAGE_SIZE false < 16384 →
      (7 : Nat) = (Protection.READ ||| Protection.WRITE ||| Protection.EXECUTE)) ∧
    (16384 ≤ MAX_PAGE_SIZE false →
      (7 : Nat) = ((if true then Protection.READ else Protection.NONE) |||
        (if false then Protection.WRITE else Protection.NONE) |||
        (if false then Protection.EXECUTE else Protection.NONE)))) ∧
    ((MAX_PAGE_SIZE false < 4096 →
      (1 : Nat) = (Protection.READ ||| Protection.WRITE ||| Protection.EXECUTE)) ∧
    (4096 ≤ MAX_PAGE_SIZE false →
      (1 : Nat) = ((if true then Protection.READ else Protection.NONE) |||
        (if false then Protection.WRITE else Protection.NONE) |||
        (if false then Protection.EXECUTE else Protection.NONE)))) :=
  ⟨c7_large_page_compensation 16384 false ⟨[], 0, [], []⟩
      ⟨PType.load, 0, 0, 0, ⟨true, false, false⟩⟩ [] ⟨[], 0, [], []⟩ 7 rfl,
    c7_large_page_compensation 4096 false ⟨[], 0, [], []⟩
      ⟨PType.load, 0, 0, 0, ⟨true, false, false⟩⟩ [] ⟨[], 0, [], []⟩ 1 rfl⟩
